import Mathlib

/-! Verification of `charges_calc.py` (rental-record validation and enrichment).

Shallow embedding of the program:
  * JSON scalar field values are modelled by `Value` (numbers as rationals,
    strings, booleans, null).  Container values never occur in the record
    fields the program touches.
  * A rental record is `RawRecord`: each of the five fields the program reads
    is `Option Value` (`none` models the key being absent from the dict, so
    that a `dict[...]` access on it raises `KeyError`).
  * Python exceptions are modelled by `PyErr`; fallible computations return
    `Except PyErr _`.  `check_value_set` catches only `AssertionError`
    internally (modelled as returning `.ok false`); `KeyError`, `TypeError`
    and `ValueError` escape it.  The batch loop catches exactly `ValueError`
    (logging an error and calling `exit(0)`, modelled by
    `BatchResult.fatalExit`); every other exception escapes uncaught
    (`BatchResult.uncaught`).
  * `datetime.datetime.strptime(s, "%m/%d/%y")` is modelled by `parseDate`,
    which mirrors the anchored regex CPython compiles for that format
    (month `1[0-2]|0[1-9]|[1-9]`, day `3[01]|[12]\d|0[1-9]|[1-9]`, year
    `\d\d`, literal slashes, whole string consumed) followed by the
    day-of-month range check of the `datetime` constructor.  Dates are compared
    and subtracted through their proleptic Gregorian ordinal (all parsed
    datetimes sit at midnight, so datetime order and difference coincide
    with ordinal order and difference).
  * `math.sqrt` returns a float; its value is not stored in the embedding.
    Its error behaviour (ValueError on a negative argument, TypeError on a
    non-number) is modelled by `mathSqrtArg`, which returns the radicand as
    a rational; statements about the stored `sqrt_total_price` use
    `Real.sqrt` of that radicand.
-/

/-- JSON scalar values that can occupy a rental-record field. -/
inductive Value where
  | num  (q : ℚ)
  | str  (s : String)
  | bool (b : Bool)
  | null
  deriving DecidableEq, Repr

/-- Python truthiness of a scalar: nonzero numbers, nonempty strings,
`True`. -/
def truthy : Value → Bool
  | .num q  => decide (q ≠ 0)
  | .str s  => decide (s ≠ "")
  | .bool b => b
  | .null   => false

/-- Numeric view of a scalar, as used by the arithmetic and order
comparisons (`bool` is an `int` subclass; strings and `None` have no
numeric view). -/
def toNumber : Value → Option ℚ
  | .num q  => some q
  | .bool b => some (if b then 1 else 0)
  | .str _  => none
  | .null   => none

/-- The Python exceptions the program can raise.  `AssertionError` does not
appear: it is always caught inside `check_value_set`. -/
inductive PyErr where
  | keyError (field : String)
  | valueError
  | typeError
  | zeroDivisionError
  | fileNotFoundError
  deriving DecidableEq, Repr

/-- Python comparison `v >= 0`: compares numerically, raises `TypeError` when the
value has no numeric order against `0` (strings, `None`). -/
def pyGeZero (v : Value) : Except PyErr Bool :=
  match toNumber v with
  | some q => .ok (decide (0 ≤ q))
  | none   => .error .typeError

/-- A calendar date as produced by `strptime`. -/
structure PyDate where
  year  : Nat
  month : Nat
  day   : Nat
  deriving DecidableEq, Repr

/-- Gregorian leap-year rule, as in `datetime`. -/
def isLeap (y : Nat) : Bool :=
  (y % 4 == 0 && y % 100 != 0) || y % 400 == 0

/-- Number of days in month `m` of year `y`. -/
def daysInMonth (y m : Nat) : Nat :=
  if m = 2 then (if isLeap y then 29 else 28)
  else if m = 4 ∨ m = 6 ∨ m = 9 ∨ m = 11 then 30
  else 31

/-- Days in year `y` strictly before month `m`. -/
def daysBeforeMonth (y m : Nat) : Nat :=
  (List.range (m - 1)).foldl (fun acc i => acc + daysInMonth y (i + 1)) 0

/-- Proleptic Gregorian ordinal of a date (day 1 = 0001-01-01), as in
`datetime.date.toordinal`.  Both comparison of midnight datetimes and
`(end - start).days` factor through it. -/
def toOrdinal (d : PyDate) : Nat :=
  365 * (d.year - 1) + (d.year - 1) / 4 - (d.year - 1) / 100 + (d.year - 1) / 400
    + daysBeforeMonth d.year d.month + d.day

/-- ASCII digit test (the record date strings are ASCII). -/
def isDigitCh (c : Char) : Bool :=
  48 ≤ c.toNat && c.toNat ≤ 57

/-- Decimal value of a nonempty all-digit character list. -/
def digitsVal : List Char → Option Nat
  | [] => none
  | cs =>
    if cs.all isDigitCh then
      some (cs.foldl (fun a c => 10 * a + (c.toNat - 48)) 0)
    else none

/-- Split a character list at every `'/'` (the format's literal
separator). -/
def splitOnSlash : List Char → List (List Char)
  | [] => [[]]
  | c :: cs =>
    let r := splitOnSlash cs
    if c = '/' then [] :: r
    else
      match r with
      | []      => [[c]]
      | t :: ts => (c :: t) :: ts

/-- The `%m` token: one or two digits with value 1..12
(regex `1[0-2]|0[1-9]|[1-9]` followed by the literal slash). -/
def monthTok (cs : List Char) : Option Nat :=
  if cs.length = 1 ∨ cs.length = 2 then
    match digitsVal cs with
    | some v => if 1 ≤ v ∧ v ≤ 12 then some v else none
    | none   => none
  else none

/-- The `%d` token: one or two digits with value 1..31
(regex `3[01]|[12]\d|0[1-9]|[1-9]`). -/
def dayTok (cs : List Char) : Option Nat :=
  if cs.length = 1 ∨ cs.length = 2 then
    match digitsVal cs with
    | some v => if 1 ≤ v ∧ v ≤ 31 then some v else none
    | none   => none
  else none

/-- The `%y` token: exactly two digits; 00-68 map to 2000-2068 and 69-99 to
1969-1999, as in `_strptime`. -/
def yearTok (cs : List Char) : Option Nat :=
  if cs.length = 2 then
    match digitsVal cs with
    | some v => some (if v ≤ 68 then 2000 + v else 1900 + v)
    | none   => none
  else none

/-- Model of `strptime(s, "%m/%d/%y")` as a partial date function: token matching per
the compiled regex, then the day-of-month check of the `datetime` constructor.
`none` models the `ValueError` strptime raises. -/
def parseDate (s : String) : Option PyDate :=
  match splitOnSlash s.toList with
  | [ms, ds, ys] =>
    match monthTok ms, dayTok ds, yearTok ys with
    | some m, some d, some y =>
      if d ≤ daysInMonth y m then some ⟨y, m, d⟩ else none
    | _, _, _ => none
  | _ => none

/-- Full `datetime.datetime.strptime(v, "%m/%d/%y")` call: `TypeError` when the
argument is not a string, `ValueError` when it does not match the format. -/
def strptime (v : Value) : Except PyErr PyDate :=
  match v with
  | .str s =>
    match parseDate s with
    | some d => .ok d
    | none   => .error .valueError
  | _ => .error .typeError

/-- A raw rental record: the five fields `charges_calc` reads.  `none`
models the key being absent from the JSON object (so subscripting raises
`KeyError`).  Keys the program never reads are irrelevant and omitted. -/
structure RawRecord where
  product_code  : Option Value
  price_per_day : Option Value
  units_rented  : Option Value
  rental_start  : Option Value
  rental_end    : Option Value
  deriving DecidableEq, Repr

/-- Function `check_value_set(value)` (charges_calc.py lines 119-143): the assert
ladder inside `try ... except AssertionError`.  A failed assert is caught
and yields `.ok false` (after a logged warning); a `KeyError` from a
missing key, a `TypeError` from a non-numeric comparison or non-string
date, and a `ValueError` from `strptime` all escape as `.error`. -/
def check_value_set (value : RawRecord) : Except PyErr Bool :=
  match value.price_per_day with
  | none => .error (.keyError "price_per_day")
  | some ppd =>
    if truthy ppd = false then .ok false
    else
      match pyGeZero ppd with
      | .error e => .error e
      | .ok g1 =>
        if g1 = false then .ok false
        else
          match value.product_code with
          | none => .error (.keyError "product_code")
          | some pc =>
            if truthy pc = false then .ok false
            else
              match value.rental_start with
              | none => .error (.keyError "rental_start")
              | some rsv =>
                if truthy rsv = false then .ok false
                else
                  match value.rental_end with
                  | none => .error (.keyError "rental_end")
                  | some rev =>
                    if truthy rev = false then .ok false
                    else
                      match strptime rsv with
                      | .error e => .error e
                      | .ok dstart =>
                        match strptime rev with
                        | .error e => .error e
                        | .ok dend =>
                          if toOrdinal dstart ≤ toOrdinal dend then
                            match value.units_rented with
                            | none => .error (.keyError "units_rented")
                            | some ur =>
                              if truthy ur = false then .ok false
                              else
                                match pyGeZero ur with
                                | .error e => .error e
                                | .ok g2 =>
                                  if g2 = false then .ok false else .ok true
                          else .ok false

/-- An enriched record: the record dict after the four assignments of
`calculate_additional_fields` (lines 91-105).  The original fields are kept
(the dict is mutated in place); `sqrt_total_price` is `math.sqrt` of
`total_price` and is determined by the stored `total_price` (its float
value is not itself stored; see the header comment). -/
structure Enriched where
  product_code  : Option Value
  price_per_day : Option Value
  units_rented  : Option Value
  rental_start  : Option Value
  rental_end    : Option Value
  total_days    : Int
  total_price   : ℚ
  unit_cost     : ℚ
  deriving DecidableEq, Repr

/-- Python `int * value` as it occurs in `total_days * price_per_day`:
numeric values multiply (bool as 0/1), an `int * str` is string
repetition, `None` raises `TypeError`. -/
def pyMulInt (n : Int) : Value → Except PyErr Value
  | .num q  => .ok (.num ((n : ℚ) * q))
  | .bool b => .ok (.num ((n : ℚ) * (if b then 1 else 0)))
  | .str s  => .ok (.str (String.join (List.replicate n.toNat s)))
  | .null   => .error .typeError

/-- Error behaviour of `math.sqrt(v)`: `TypeError` on a non-number,
`ValueError` (math domain error) on a negative number; on success the
radicand is returned (the stored float is its real square root). -/
def mathSqrtArg (v : Value) : Except PyErr ℚ :=
  match toNumber v with
  | some q => if q < 0 then .error .valueError else .ok q
  | none   => .error .typeError

/-- Python `q / v` as in `total_price / units_rented`: `TypeError` on a
non-number divisor, `ZeroDivisionError` on zero. -/
def pyDiv (q : ℚ) (v : Value) : Except PyErr ℚ :=
  match toNumber v with
  | some u => if u = 0 then .error .zeroDivisionError else .ok (q / u)
  | none   => .error .typeError

/-- The enrichment block of `calculate_additional_fields` (lines 91-105):
re-parse both dates, then compute `total_days`, `total_price`,
`sqrt_total_price` and `unit_cost`, mutating the record.  Each dict access
and arithmetic step can raise; the first exception aborts the block. -/
def enrich (value : RawRecord) : Except PyErr Enriched :=
  match value.rental_start with
  | none => .error (.keyError "rental_start")
  | some rsv =>
    match strptime rsv with
    | .error e => .error e
    | .ok dstart =>
      match value.rental_end with
      | none => .error (.keyError "rental_end")
      | some rev =>
        match strptime rev with
        | .error e => .error e
        | .ok dend =>
          let total_days : Int := (toOrdinal dend : Int) - (toOrdinal dstart : Int)
          match value.price_per_day with
          | none => .error (.keyError "price_per_day")
          | some ppd =>
            match pyMulInt total_days ppd with
            | .error e => .error e
            | .ok tp =>
              match mathSqrtArg tp with
              | .error e => .error e
              | .ok tpq =>
                match value.units_rented with
                | none => .error (.keyError "units_rented")
                | some ur =>
                  match pyDiv tpq ur with
                  | .error e => .error e
                  | .ok uc =>
                    .ok { product_code := value.product_code
                          price_per_day := value.price_per_day
                          units_rented := value.units_rented
                          rental_start := value.rental_start
                          rental_end := value.rental_end
                          total_days := total_days
                          total_price := tpq
                          unit_cost := uc }

/-- Outcome of the batch loop of `calculate_additional_fields`.
`fatalExit` models the `except ValueError` handler (line 112-114):
`LOGGER.error(...)` followed by `exit(0)`, terminating the run with no
output written.  `uncaught` models any other exception escaping the loop
(no handler exists for it), also terminating the run with no output. -/
inductive BatchResult where
  | ok (cleaned_data : List (String × Enriched))
  | fatalExit
  | uncaught (e : PyErr)
  deriving DecidableEq, Repr

/-- The per-record loop of `calculate_additional_fields` (lines 63-117),
with the accumulated `cleaned_data` dict threaded through: validate, and on
`True` enrich and insert under the original key; a `ValueError` from either
step hits the handler (`fatalExit`); any other exception is uncaught. -/
def calcAux : List (String × RawRecord) → List (String × Enriched) → BatchResult
  | [], cleaned_data => .ok cleaned_data
  | (key, value) :: rest, cleaned_data =>
    match check_value_set value with
    | .error .valueError => .fatalExit
    | .error e => .uncaught e
    | .ok false => calcAux rest cleaned_data
    | .ok true =>
      match enrich value with
      | .error .valueError => .fatalExit
      | .error e => .uncaught e
      | .ok enr => calcAux rest (cleaned_data ++ [(key, enr)])

/-- Function `calculate_additional_fields(data)`: run the loop starting from the
empty `cleaned_data` dict. -/
def calculate_additional_fields (data : List (String × RawRecord)) : BatchResult :=
  calcAux data []

/-- What `save_to_json` does with the destination file. -/
inductive SaveResult where
  | written (indent : Nat) (data : List (String × Enriched))
  | skippedWarning
  deriving DecidableEq, Repr

/-- Function `save_to_json(filename, data)` (lines 146-154): `if data:` — a
non-empty dict is serialized with `json.dump(..., indent=2)`; an empty
(falsy) dict logs a warning and writes nothing. -/
def save_to_json (data : List (String × Enriched)) : SaveResult :=
  if data.isEmpty then .skippedWarning else .written 2 data

/-- The state of the input file named on the command line. -/
inductive FileState where
  | missing
  | unreadableJson
  | content (data : List (String × RawRecord))
  deriving DecidableEq, Repr

/-- Outcome of `load_rentals_file`.  `loggedAbort` is the body of its
`except FileNotFoundError` handler (`LOGGER.error`; `exit(0)`). -/
inductive LoadResult where
  | loaded (data : List (String × RawRecord))
  | loggedAbort
  | uncaught (e : PyErr)
  deriving DecidableEq, Repr

/-- Function `load_rentals_file(filename)` (lines 49-57).  `open(filename)` stands
BEFORE the `try`, so a missing file raises `FileNotFoundError` outside the
handler: uncaught.  The `try` wraps only `json.load`, which raises
`JSONDecodeError` (a `ValueError`) on malformed JSON — also not caught by
`except FileNotFoundError`.  The handler (`loggedAbort`) is unreachable. -/
def load_rentals_file (f : FileState) : LoadResult :=
  match f with
  | .missing => .uncaught .fileNotFoundError
  | .unreadableJson => .uncaught .valueError
  | .content data => .loaded data

/-- Outcome of the whole run (`__main__`, lines 157-161). -/
inductive RunResult where
  | finished (saved : SaveResult)
  | abortedFatal
  | crashed (e : PyErr)
  deriving DecidableEq, Repr

/-- The `__main__` pipeline: load, calculate, save.  Any abort or crash in
an earlier stage prevents the later ones, so no output file is written. -/
def run_main (f : FileState) : RunResult :=
  match load_rentals_file f with
  | .uncaught e => .crashed e
  | .loggedAbort => .abortedFatal
  | .loaded data =>
    match calculate_additional_fields data with
    | .fatalExit => .abortedFatal
    | .uncaught e => .crashed e
    | .ok cleaned => .finished (save_to_json cleaned)

deriving instance DecidableEq for Except

/-- The record of end-to-end example 1 in the spec. -/
def rec4 : RawRecord :=
  { product_code := some (.str "X"), price_per_day := some (.num 10),
    units_rented := some (.num 2), rental_start := some (.str "01/01/20"),
    rental_end := some (.str "01/03/20") }

/-- The enriched record the program produces from `rec4`. -/
def enr4 : Enriched :=
  { product_code := some (.str "X"), price_per_day := some (.num 10),
    units_rented := some (.num 2), rental_start := some (.str "01/01/20"),
    rental_end := some (.str "01/03/20"), total_days := 2, total_price := 20,
    unit_cost := 10 }

theorem parse_example_start : parseDate "01/01/20" = some ⟨2020, 1, 1⟩ := by decide

theorem parse_example_end : parseDate "01/03/20" = some ⟨2020, 1, 3⟩ := by decide

theorem ord_diff_example :
    (toOrdinal ⟨2020, 1, 3⟩ : Int) - (toOrdinal ⟨2020, 1, 1⟩ : Int) = 2 := by decide

theorem check_rec4 : check_value_set rec4 = .ok true := by decide

theorem enrich_rec4 : enrich rec4 = .ok enr4 := by
  simp only [enrich, rec4, strptime, parse_example_start, parse_example_end,
    ord_diff_example, pyMulInt, mathSqrtArg, toNumber, pyDiv, enr4]
  norm_num [Enriched.mk.injEq]

theorem calc_rec4 : calculate_additional_fields [("A", rec4)] = .ok [("A", enr4)] := by
  simp only [calculate_additional_fields, calcAux, check_rec4, enrich_rec4,
    List.nil_append]

theorem pyGeZero_ok_true {v : Value} (h : pyGeZero v = .ok true) :
    ∃ q, toNumber v = some q ∧ 0 ≤ q := by
  unfold pyGeZero at h
  cases hv : toNumber v with
  | none => rw [hv] at h; cases h
  | some q =>
    rw [hv] at h
    refine ⟨q, rfl, ?_⟩
    injection h with h
    simpa using h

theorem strptime_ok_shape {v : Value} {d : PyDate} (h : strptime v = .ok d) :
    ∃ s, v = .str s ∧ parseDate s = some d ∧ s ≠ "" := by
  match v with
  | .num q => exact absurd h (by simp [strptime])
  | .bool b => exact absurd h (by simp [strptime])
  | .null => exact absurd h (by simp [strptime])
  | .str s =>
    have hp : parseDate s = some d := by
      simp only [strptime] at h
      cases hps : parseDate s with
      | none => rw [hps] at h; cases h
      | some d2 => rw [hps] at h; injection h with h; rw [h]
    refine ⟨s, rfl, hp, ?_⟩
    rintro rfl
    rw [show parseDate "" = none from by decide] at hp
    cases hp

theorem truthy_toNumber_ne_zero {v : Value} {q : ℚ} (ht : truthy v = true)
    (hn : toNumber v = some q) : q ≠ 0 := by
  cases v with
  | num q2 =>
    simp only [toNumber, Option.some.injEq] at hn
    subst hn
    simpa [truthy] using ht
  | str s => simp [toNumber] at hn
  | bool b =>
    simp only [truthy] at ht
    subst ht
    simp only [toNumber, if_true, Option.some.injEq] at hn
    exact hn ▸ one_ne_zero
  | null => simp [toNumber] at hn

theorem check_true_shape {r : RawRecord} (h : check_value_set r = .ok true) :
    ∃ ppd q pc s1 d1 s2 d2 ur u,
      r.price_per_day = some ppd ∧ truthy ppd = true ∧ toNumber ppd = some q ∧ 0 ≤ q ∧
      r.product_code = some pc ∧ truthy pc = true ∧
      r.rental_start = some (.str s1) ∧ s1 ≠ "" ∧ parseDate s1 = some d1 ∧
      r.rental_end = some (.str s2) ∧ s2 ≠ "" ∧ parseDate s2 = some d2 ∧
      toOrdinal d1 ≤ toOrdinal d2 ∧
      r.units_rented = some ur ∧ truthy ur = true ∧ toNumber ur = some u ∧
      0 ≤ u ∧ u ≠ 0 := by
  unfold check_value_set at h
  split at h
  · cases h
  next ppd hppd =>
  split at h
  · cases h
  next htp =>
  split at h
  · cases h
  next g1 hg1 =>
  split at h
  · cases h
  next hg1t =>
  split at h
  · cases h
  next pc hpc =>
  split at h
  · cases h
  next htpc =>
  split at h
  · cases h
  next rsv hrsv =>
  split at h
  · cases h
  next htrs =>
  split at h
  · cases h
  next rev hrev =>
  split at h
  · cases h
  next htre =>
  split at h
  · cases h
  next dstart hds =>
  split at h
  · cases h
  next dend hde =>
  split at h
  case isFalse => cases h
  next hord =>
  split at h
  · cases h
  next ur hur =>
  split at h
  · cases h
  next htur =>
  split at h
  · cases h
  next g2 hg2 =>
  split at h
  · cases h
  next hg2t =>
  have hg1' : pyGeZero ppd = .ok true := by
    rw [hg1]; congr 1; revert hg1t; cases g1 <;> simp
  have hg2' : pyGeZero ur = .ok true := by
    rw [hg2]; congr 1; revert hg2t; cases g2 <;> simp
  obtain ⟨q, hq, hq0⟩ := pyGeZero_ok_true hg1'
  obtain ⟨u, hu, hu0⟩ := pyGeZero_ok_true hg2'
  obtain ⟨s1, hs1, hd1, hs1ne⟩ := strptime_ok_shape hds
  obtain ⟨s2, hs2, hd2, hs2ne⟩ := strptime_ok_shape hde
  subst hs1
  subst hs2
  have htp' : truthy ppd = true := by revert htp; cases truthy ppd <;> simp
  have htpc' : truthy pc = true := by revert htpc; cases truthy pc <;> simp
  have htur' : truthy ur = true := by revert htur; cases truthy ur <;> simp
  exact ⟨ppd, q, pc, s1, dstart, s2, dend, ur, u, hppd, htp', hq, hq0, hpc, htpc',
    hrsv, hs1ne, hd1, hrev, hs2ne, hd2, hord, hur, htur', hu,
    hu0, truthy_toNumber_ne_zero htur' hu⟩

theorem pyMulInt_of_toNumber {n : Int} {v : Value} {q : ℚ} (h : toNumber v = some q) :
    pyMulInt n v = .ok (.num ((n : ℚ) * q)) := by
  cases v with
  | num q2 => simp only [toNumber, Option.some.injEq] at h; subst h; rfl
  | bool b => simp only [toNumber, Option.some.injEq] at h; subst h; rfl
  | str s => simp [toNumber] at h
  | null => simp [toNumber] at h

theorem enrich_of_shape {r : RawRecord} {ppd : Value} {q : ℚ} {s1 s2 : String}
    {d1 d2 : PyDate} {ur : Value} {u : ℚ}
    (hppd : r.price_per_day = some ppd) (hq : toNumber ppd = some q)
    (hrs : r.rental_start = some (.str s1)) (hd1 : parseDate s1 = some d1)
    (hre : r.rental_end = some (.str s2)) (hd2 : parseDate s2 = some d2)
    (hur : r.units_rented = some ur) (hu : toNumber ur = some u)
    (hq0 : 0 ≤ q) (hord : toOrdinal d1 ≤ toOrdinal d2) (hu0 : u ≠ 0) :
    enrich r = .ok
      { product_code := r.product_code, price_per_day := r.price_per_day,
        units_rented := r.units_rented, rental_start := r.rental_start,
        rental_end := r.rental_end,
        total_days := (toOrdinal d2 : Int) - (toOrdinal d1 : Int),
        total_price := ((((toOrdinal d2 : Int) - (toOrdinal d1 : Int)) : Int) : ℚ) * q,
        unit_cost := (((((toOrdinal d2 : Int) - (toOrdinal d1 : Int)) : Int) : ℚ) * q) / u } := by
  have hmul := pyMulInt_of_toNumber (n := (toOrdinal d2 : Int) - (toOrdinal d1 : Int)) hq
  have hD : (0 : Int) ≤ (toOrdinal d2 : Int) - (toOrdinal d1 : Int) := by omega
  have hDq : (0 : ℚ) ≤ ((((toOrdinal d2 : Int) - (toOrdinal d1 : Int)) : Int) : ℚ) := by
    exact_mod_cast hD
  have hnn : ¬ (((((toOrdinal d2 : Int) - (toOrdinal d1 : Int)) : Int) : ℚ) * q < 0) := by
    push_neg
    exact mul_nonneg hDq hq0
  have htnum : ∀ x : ℚ, toNumber (.num x) = some x := fun x => rfl
  simp only [enrich, hrs, strptime, hd1, hre, hd2, hppd, hmul, mathSqrtArg, htnum,
    hur, pyDiv, hu, if_neg hnn, if_neg hu0]

/-- C4: on the input mapping of end-to-end example 1, the batch returns an
output mapping with key "A" whose record has total_days = 2,
total_price = 20, unit_cost = 10, and sqrt_total_price = √20, which lies
strictly between 4.47 and 4.48. -/
theorem end_to_end_example_one :
    calculate_additional_fields [("A", rec4)] = .ok [("A", enr4)] ∧
    enr4.total_days = 2 ∧ enr4.total_price = 20 ∧ enr4.unit_cost = 10 ∧
    (4.47 : ℝ) < Real.sqrt ((enr4.total_price : ℚ) : ℝ) ∧
    Real.sqrt ((enr4.total_price : ℚ) : ℝ) < 4.48 := by
  have htp : ((enr4.total_price : ℚ) : ℝ) = 20 := by norm_num [enr4]
  refine ⟨calc_rec4, by decide, by decide, by decide, ?_, ?_⟩
  · rw [htp, show (4.47 : ℝ) < Real.sqrt 20 ↔ (4.47 : ℝ) ^ 2 < 20 from
      Real.lt_sqrt (by norm_num)]
    norm_num
  · rw [htp, Real.sqrt_lt' (by norm_num)]
    norm_num

/-- C5: for every record that passes validation, `total_days` equals the
exact day difference between the parsed `rental_end` and the parsed
`rental_start`, and is always ≥ 0 (zero for a same-day rental), since
validation guarantees parsed start ≤ parsed end. -/
theorem total_days_exact_and_nonneg {r : RawRecord}
    (h : check_value_set r = .ok true) :
    ∃ s1 s2 d1 d2 e,
      r.rental_start = some (.str s1) ∧ r.rental_end = some (.str s2) ∧
      parseDate s1 = some d1 ∧ parseDate s2 = some d2 ∧
      enrich r = .ok e ∧
      e.total_days = (toOrdinal d2 : Int) - (toOrdinal d1 : Int) ∧
      0 ≤ e.total_days := by
  obtain ⟨ppd, q, pc, s1, d1, s2, d2, ur, u, hppd, htp, hq, hq0, hpc, htpc,
    hrs, hs1, hd1, hre, hs2, hd2, hord, hur, htur, hu, hu0, hune⟩ := check_true_shape h
  refine ⟨s1, s2, d1, d2, _, hrs, hre, hd1, hd2,
    enrich_of_shape hppd hq hrs hd1 hre hd2 hur hu hq0 hord hune, rfl, ?_⟩
  show (0 : Int) ≤ (toOrdinal d2 : Int) - (toOrdinal d1 : Int)
  omega

/-- C5 witness: the example record passes validation and the theorem
applies to it. -/
theorem total_days_exact_and_nonneg_witness :
    ∃ s1 s2 d1 d2 e,
      rec4.rental_start = some (.str s1) ∧ rec4.rental_end = some (.str s2) ∧
      parseDate s1 = some d1 ∧ parseDate s2 = some d2 ∧
      enrich rec4 = .ok e ∧
      e.total_days = (toOrdinal d2 : Int) - (toOrdinal d1 : Int) ∧
      0 ≤ e.total_days :=
  total_days_exact_and_nonneg (by decide)

/-- C9: enrichment depends only on the base fields it reads: any record
agreeing with a validated record on `price_per_day`, `units_rented`,
`rental_start` and `rental_end` (derived or other fields arbitrary)
enriches successfully with identical `total_days`, `total_price`,
`sqrt_total_price` and `unit_cost`. -/
theorem enrich_idempotent_on_base_fields {r1 r2 : RawRecord}
    (h : check_value_set r1 = .ok true)
    (hp : r2.price_per_day = r1.price_per_day)
    (hn : r2.units_rented = r1.units_rented)
    (hs : r2.rental_start = r1.rental_start)
    (he : r2.rental_end = r1.rental_end) :
    ∃ e1 e2, enrich r1 = .ok e1 ∧ enrich r2 = .ok e2 ∧
      e1.total_days = e2.total_days ∧ e1.total_price = e2.total_price ∧
      Real.sqrt ((e1.total_price : ℚ) : ℝ) = Real.sqrt ((e2.total_price : ℚ) : ℝ) ∧
      e1.unit_cost = e2.unit_cost := by
  obtain ⟨ppd, q, pc, s1, d1, s2, d2, ur, u, hppd, htp, hq, hq0, hpc, htpc,
    hrs, hs1, hd1, hre, hs2, hd2, hord, hur, htur, hu, hu0, hune⟩ := check_true_shape h
  exact ⟨_, _, enrich_of_shape hppd hq hrs hd1 hre hd2 hur hu hq0 hord hune,
    enrich_of_shape (hp.trans hppd) hq (hs.trans hrs) hd1 (he.trans hre) hd2
      (hn.trans hur) hu hq0 hord hune, rfl, rfl, rfl, rfl⟩

/-- C9 witness: the theorem applied to the example record and itself. -/
theorem enrich_idempotent_on_base_fields_witness :
    ∃ e1 e2, enrich rec4 = .ok e1 ∧ enrich rec4 = .ok e2 ∧
      e1.total_days = e2.total_days ∧ e1.total_price = e2.total_price ∧
      Real.sqrt ((e1.total_price : ℚ) : ℝ) = Real.sqrt ((e2.total_price : ℚ) : ℝ) ∧
      e1.unit_cost = e2.unit_cost :=
  enrich_idempotent_on_base_fields (by decide) rfl rfl rfl rfl

/-- C10: for every record the validator accepts, enrichment cannot fail:
the computed `total_price` is ≥ 0 (so the domain-error branch of `math.sqrt` is
unreachable) and `units_rented` is a nonzero number (so the
division-by-zero branch is unreachable); `enrich` returns `.ok`. -/
theorem check_true_enrich_safe {r : RawRecord}
    (h : check_value_set r = .ok true) :
    ∃ e, enrich r = .ok e ∧ 0 ≤ e.total_price ∧
      ∃ ur u, r.units_rented = some ur ∧ toNumber ur = some u ∧ u ≠ 0 := by
  obtain ⟨ppd, q, pc, s1, d1, s2, d2, ur, u, hppd, htp, hq, hq0, hpc, htpc,
    hrs, hs1, hd1, hre, hs2, hd2, hord, hur, htur, hu, hu0, hune⟩ := check_true_shape h
  refine ⟨_, enrich_of_shape hppd hq hrs hd1 hre hd2 hur hu hq0 hord hune,
    ?_, ur, u, hur, hu, hune⟩
  have hD : (0 : Int) ≤ (toOrdinal d2 : Int) - (toOrdinal d1 : Int) := by omega
  have hDq : (0 : ℚ) ≤ ((((toOrdinal d2 : Int) - (toOrdinal d1 : Int)) : Int) : ℚ) := by
    exact_mod_cast hD
  exact mul_nonneg hDq hq0

/-- C10 witness: the theorem applied to the example record. -/
theorem check_true_enrich_safe_witness :
    ∃ e, enrich rec4 = .ok e ∧ 0 ≤ e.total_price ∧
      ∃ ur u, rec4.units_rented = some ur ∧ toNumber ur = some u ∧ u ≠ 0 :=
  check_true_enrich_safe (by decide)

/-- C2: the validator applies its checks in exactly the order
(1) price_per_day present and truthy, (2) price_per_day ≥ 0,
(3) product_code present and truthy, (4) rental_start present and truthy,
(5) rental_end present and truthy, (6) both date strings parse (start
first), (7) parsed start ≤ parsed end, (8) units_rented present and
truthy, (9) units_rented ≥ 0, short-circuiting on the first failure: each
clause below constrains only the fields read by the earlier checks,
leaves every later field completely arbitrary, and a failure of any check
other than the date parse yields `.ok false` (the caught-and-logged
AssertionError), while a date-parse failure yields `.error .valueError`. -/
theorem check_order_short_circuit :
    (∀ r v, r.price_per_day = some v → truthy v = false →
      check_value_set r = .ok false) ∧
    (∀ r v, r.price_per_day = some v → truthy v = true →
      pyGeZero v = .ok false →
      check_value_set r = .ok false) ∧
    (∀ r v pc, r.price_per_day = some v → truthy v = true →
      pyGeZero v = .ok true → r.product_code = some pc → truthy pc = false →
      check_value_set r = .ok false) ∧
    (∀ r v pc rs, r.price_per_day = some v → truthy v = true →
      pyGeZero v = .ok true → r.product_code = some pc → truthy pc = true →
      r.rental_start = some rs → truthy rs = false →
      check_value_set r = .ok false) ∧
    (∀ r v pc rs re0, r.price_per_day = some v → truthy v = true →
      pyGeZero v = .ok true → r.product_code = some pc → truthy pc = true →
      r.rental_start = some rs → truthy rs = true →
      r.rental_end = some re0 → truthy re0 = false →
      check_value_set r = .ok false) ∧
    (∀ r v pc rs re0, r.price_per_day = some v → truthy v = true →
      pyGeZero v = .ok true → r.product_code = some pc → truthy pc = true →
      r.rental_start = some rs → truthy rs = true →
      r.rental_end = some re0 → truthy re0 = true →
      strptime rs = .error .valueError →
      check_value_set r = .error .valueError) ∧
    (∀ r v pc rs re0 d1, r.price_per_day = some v → truthy v = true →
      pyGeZero v = .ok true → r.product_code = some pc → truthy pc = true →
      r.rental_start = some rs → truthy rs = true →
      r.rental_end = some re0 → truthy re0 = true →
      strptime rs = .ok d1 → strptime re0 = .error .valueError →
      check_value_set r = .error .valueError) ∧
    (∀ r v pc rs re0 d1 d2, r.price_per_day = some v → truthy v = true →
      pyGeZero v = .ok true → r.product_code = some pc → truthy pc = true →
      r.rental_start = some rs → truthy rs = true →
      r.rental_end = some re0 → truthy re0 = true →
      strptime rs = .ok d1 → strptime re0 = .ok d2 →
      ¬ toOrdinal d1 ≤ toOrdinal d2 →
      check_value_set r = .ok false) ∧
    (∀ r v pc rs re0 d1 d2 ur, r.price_per_day = some v → truthy v = true →
      pyGeZero v = .ok true → r.product_code = some pc → truthy pc = true →
      r.rental_start = some rs → truthy rs = true →
      r.rental_end = some re0 → truthy re0 = true →
      strptime rs = .ok d1 → strptime re0 = .ok d2 →
      toOrdinal d1 ≤ toOrdinal d2 →
      r.units_rented = some ur → truthy ur = false →
      check_value_set r = .ok false) ∧
    (∀ r v pc rs re0 d1 d2 ur, r.price_per_day = some v → truthy v = true →
      pyGeZero v = .ok true → r.product_code = some pc → truthy pc = true →
      r.rental_start = some rs → truthy rs = true →
      r.rental_end = some re0 → truthy re0 = true →
      strptime rs = .ok d1 → strptime re0 = .ok d2 →
      toOrdinal d1 ≤ toOrdinal d2 →
      r.units_rented = some ur → truthy ur = true →
      pyGeZero ur = .ok false →
      check_value_set r = .ok false) := by
  refine ⟨?_, ?_, ?_, ?_, ?_, ?_, ?_, ?_, ?_, ?_⟩
  · intro r v h1 h2
    simp [check_value_set, h1, h2]
  · intro r v h1 h2 h3
    simp [check_value_set, h1, h2, h3]
  · intro r v pc h1 h2 h3 h4 h5
    simp [check_value_set, h1, h2, h3, h4, h5]
  · intro r v pc rs h1 h2 h3 h4 h5 h6 h7
    simp [check_value_set, h1, h2, h3, h4, h5, h6, h7]
  · intro r v pc rs re0 h1 h2 h3 h4 h5 h6 h7 h8 h9
    simp [check_value_set, h1, h2, h3, h4, h5, h6, h7, h8, h9]
  · intro r v pc rs re0 h1 h2 h3 h4 h5 h6 h7 h8 h9 h10
    simp [check_value_set, h1, h2, h3, h4, h5, h6, h7, h8, h9, h10]
  · intro r v pc rs re0 d1 h1 h2 h3 h4 h5 h6 h7 h8 h9 h10 h11
    simp [check_value_set, h1, h2, h3, h4, h5, h6, h7, h8, h9, h10, h11]
  · intro r v pc rs re0 d1 d2 h1 h2 h3 h4 h5 h6 h7 h8 h9 h10 h11 h12
    simp [check_value_set, h1, h2, h3, h4, h5, h6, h7, h8, h9, h10, h11, h12]
  · intro r v pc rs re0 d1 d2 ur h1 h2 h3 h4 h5 h6 h7 h8 h9 h10 h11 h12 h13 h14
    simp [check_value_set, h1, h2, h3, h4, h5, h6, h7, h8, h9, h10, h11, h12, h13, h14]
  · intro r v pc rs re0 d1 d2 ur h1 h2 h3 h4 h5 h6 h7 h8 h9 h10 h11 h12 h13 h14 h15
    simp [check_value_set, h1, h2, h3, h4, h5, h6, h7, h8, h9, h10, h11, h12, h13, h14, h15]

/-- Records exercising each clause of the validator-order theorem; every
field after the failing check is absent, so the clause conclusions also
demonstrate that later checks are never evaluated. -/
def w2a : RawRecord := ⟨none, some (.num 0), none, none, none⟩

def w2b : RawRecord := ⟨none, some (.num (-5)), none, none, none⟩

def w2c : RawRecord := ⟨some (.str ""), some (.num 10), none, none, none⟩

def w2d : RawRecord := ⟨some (.str "X"), some (.num 10), none, some (.str ""), none⟩

def w2e : RawRecord :=
  ⟨some (.str "X"), some (.num 10), none, some (.str "01/01/20"), some (.str "")⟩

def w2f : RawRecord :=
  ⟨some (.str "X"), some (.num 10), none, some (.str "2020-01-01"), some (.str "x")⟩

def w2g : RawRecord :=
  ⟨some (.str "X"), some (.num 10), none, some (.str "01/01/20"), some (.str "x")⟩

def w2h : RawRecord :=
  ⟨some (.str "X"), some (.num 10), none, some (.str "01/05/20"), some (.str "01/01/20")⟩

def w2i : RawRecord :=
  ⟨some (.str "X"), some (.num 10), some (.num 0), some (.str "01/01/20"),
    some (.str "01/03/20")⟩

def w2j : RawRecord :=
  ⟨some (.str "X"), some (.num 10), some (.num (-3)), some (.str "01/01/20"),
    some (.str "01/03/20")⟩

/-- C2 witness: every clause of the order theorem applied at a concrete
record whose later fields are all absent. -/
theorem check_order_short_circuit_witness :
    check_value_set w2a = .ok false ∧ check_value_set w2b = .ok false ∧
    check_value_set w2c = .ok false ∧ check_value_set w2d = .ok false ∧
    check_value_set w2e = .ok false ∧
    check_value_set w2f = .error .valueError ∧
    check_value_set w2g = .error .valueError ∧
    check_value_set w2h = .ok false ∧ check_value_set w2i = .ok false ∧
    check_value_set w2j = .ok false := by
  obtain ⟨c1, c2, c3, c4, c5, c6, c7, c8, c9, c10⟩ := check_order_short_circuit
  refine ⟨c1 w2a (.num 0) rfl (by decide),
    c2 w2b (.num (-5)) rfl (by decide) (by decide),
    c3 w2c (.num 10) (.str "") rfl (by decide) (by decide) rfl (by decide),
    c4 w2d (.num 10) (.str "X") (.str "") rfl (by decide) (by decide) rfl (by decide)
      rfl (by decide),
    c5 w2e (.num 10) (.str "X") (.str "01/01/20") (.str "") rfl (by decide) (by decide)
      rfl (by decide) rfl (by decide) rfl (by decide),
    c6 w2f (.num 10) (.str "X") (.str "2020-01-01") (.str "x") rfl (by decide)
      (by decide) rfl (by decide) rfl (by decide) rfl (by decide) (by decide),
    c7 w2g (.num 10) (.str "X") (.str "01/01/20") (.str "x") ⟨2020, 1, 1⟩ rfl
      (by decide) (by decide) rfl (by decide) rfl (by decide) rfl (by decide)
      (by decide) (by decide),
    c8 w2h (.num 10) (.str "X") (.str "01/05/20") (.str "01/01/20") ⟨2020, 1, 5⟩
      ⟨2020, 1, 1⟩ rfl (by decide) (by decide) rfl (by decide) rfl (by decide) rfl
      (by decide) (by decide) (by decide) (by decide),
    c9 w2i (.num 10) (.str "X") (.str "01/01/20") (.str "01/03/20") ⟨2020, 1, 1⟩
      ⟨2020, 1, 3⟩ (.num 0) rfl (by decide) (by decide) rfl (by decide) rfl
      (by decide) rfl (by decide) (by decide) (by decide) (by decide) rfl (by decide),
    c10 w2j (.num 10) (.str "X") (.str "01/01/20") (.str "01/03/20") ⟨2020, 1, 1⟩
      ⟨2020, 1, 3⟩ (.num (-3)) rfl (by decide) (by decide) rfl (by decide) rfl
      (by decide) rfl (by decide) (by decide) (by decide) (by decide) rfl (by decide)
      (by decide)⟩

/-- The record of end-to-end example 2 in the spec: `units_rented` missing,
every other field valid. -/
def exC1 : RawRecord :=
  { product_code := some (.str "X"), price_per_day := some (.num 10),
    units_rented := none, rental_start := some (.str "01/01/20"),
    rental_end := some (.str "01/03/20") }

/-- C1 counterexample: on the example-2 record the validator does not
return false — the units_rented subscript access raises `KeyError`, which
neither the `except AssertionError` of the validator nor the `except ValueError` of the
`except ValueError` catches, so an error IS raised and the run does not
continue. -/
theorem missing_units_rented_crashes :
    check_value_set exC1 ≠ .ok false ∧
    check_value_set exC1 = .error (.keyError "units_rented") ∧
    calculate_additional_fields [("A", exC1)] = .uncaught (.keyError "units_rented") := by
  refine ⟨by decide, by decide, ?_⟩
  have hc : check_value_set exC1 = .error (.keyError "units_rented") := by decide
  simp [calculate_additional_fields, calcAux, hc]

/-- C1 (amended): a record missing any of the five fields never validates
as true; and when every check before the access of the missing field passes
(here: `units_rented` missing with all earlier checks passing), the access
raises `KeyError "units_rented"`, which escapes the validator and the
batch loop, crashing the run. -/
theorem missing_field_never_validates :
    (∀ r : RawRecord,
      r.product_code = none ∨ r.price_per_day = none ∨ r.units_rented = none ∨
        r.rental_start = none ∨ r.rental_end = none →
      check_value_set r ≠ .ok true) ∧
    (∀ (r : RawRecord) v pc rs re0 d1 d2 (key : String) rest,
      r.price_per_day = some v → truthy v = true → pyGeZero v = .ok true →
      r.product_code = some pc → truthy pc = true →
      r.rental_start = some rs → truthy rs = true →
      r.rental_end = some re0 → truthy re0 = true →
      strptime rs = .ok d1 → strptime re0 = .ok d2 →
      toOrdinal d1 ≤ toOrdinal d2 →
      r.units_rented = none →
      check_value_set r = .error (.keyError "units_rented") ∧
      calculate_additional_fields ((key, r) :: rest) =
        .uncaught (.keyError "units_rented")) := by
  constructor
  · intro r hmiss hok
    obtain ⟨ppd, q, pc, s1, d1, s2, d2, ur, u, hppd, htp, hq, hq0, hpc, htpc,
      hrs, hs1, hd1, hre, hs2, hd2, hord, hur, htur, hu, hu0, hune⟩ :=
      check_true_shape hok
    rcases hmiss with hm | hm | hm | hm | hm
    · rw [hm] at hpc; cases hpc
    · rw [hm] at hppd; cases hppd
    · rw [hm] at hur; cases hur
    · rw [hm] at hrs; cases hrs
    · rw [hm] at hre; cases hre
  · intro r v pc rs re0 d1 d2 key rest h1 h2 h3 h4 h5 h6 h7 h8 h9 h10 h11 h12 h13
    have hc : check_value_set r = .error (.keyError "units_rented") := by
      simp [check_value_set, h1, h2, h3, h4, h5, h6, h7, h8, h9, h10, h11, h12, h13]
    exact ⟨hc, by simp [calculate_additional_fields, calcAux, hc]⟩

/-- C1 witness: the amended theorem applied at the example-2 record. -/
theorem missing_field_never_validates_witness :
    check_value_set exC1 ≠ .ok true ∧
    check_value_set exC1 = .error (.keyError "units_rented") ∧
    calculate_additional_fields [("A", exC1)] =
      .uncaught (.keyError "units_rented") := by
  refine ⟨missing_field_never_validates.1 exC1 (Or.inr (Or.inr (Or.inl rfl))), ?_, ?_⟩
  · exact (missing_field_never_validates.2 exC1 (.num 10) (.str "X")
      (.str "01/01/20") (.str "01/03/20") ⟨2020, 1, 1⟩ ⟨2020, 1, 3⟩ "A" [] rfl
      (by decide) (by decide) rfl (by decide) rfl (by decide) rfl (by decide)
      (by decide) (by decide) (by decide) rfl).1
  · exact (missing_field_never_validates.2 exC1 (.num 10) (.str "X")
      (.str "01/01/20") (.str "01/03/20") ⟨2020, 1, 1⟩ ⟨2020, 1, 3⟩ "A" [] rfl
      (by decide) (by decide) rfl (by decide) rfl (by decide) rfl (by decide)
      (by decide) (by decide) (by decide) rfl).2

theorem calcAux_append {l1 : List (String × RawRecord)} {acc acc' : List (String × Enriched)}
    (h : calcAux l1 acc = .ok acc') (l2 : List (String × RawRecord)) :
    calcAux (l1 ++ l2) acc = calcAux l2 acc' := by
  induction l1 generalizing acc with
  | nil =>
    simp only [calcAux] at h
    injection h with h
    subst h
    simp
  | cons kv rest ih =>
    obtain ⟨key, value⟩ := kv
    simp only [calcAux, List.cons_append] at h ⊢
    cases hc : check_value_set value with
    | error e =>
      rw [hc] at h
      cases e <;> simp at h
    | ok b =>
      cases b with
      | false =>
        rw [hc] at h
        exact ih h
      | true =>
        rw [hc] at h
        cases he : enrich value with
        | error e =>
          rw [he] at h
          cases e <;> simp at h
        | ok enr =>
          rw [he] at h
          exact ih h

/-- C3: when validation reaches its date check (all earlier checks pass)
and a date string fails to parse, the `ValueError` is not caught inside
`check_value_set`; it reaches the batch-level `except ValueError` handler,
which logs an error and exits: however far processing had got, the run
terminates with no output mapping and nothing is written. -/
theorem date_parse_failure_aborts_run :
    ∀ (r : RawRecord) v pc rs re0,
      r.price_per_day = some v → truthy v = true → pyGeZero v = .ok true →
      r.product_code = some pc → truthy pc = true →
      r.rental_start = some rs → truthy rs = true →
      r.rental_end = some re0 → truthy re0 = true →
      (strptime rs = .error .valueError ∨
        (∃ d1, strptime rs = .ok d1 ∧ strptime re0 = .error .valueError)) →
      check_value_set r = .error .valueError ∧
      ∀ pre (key : String) rest acc, calcAux pre [] = .ok acc →
        calculate_additional_fields (pre ++ (key, r) :: rest) = .fatalExit ∧
        run_main (.content (pre ++ (key, r) :: rest)) = .abortedFatal := by
  intro r v pc rs re0 h1 h2 h3 h4 h5 h6 h7 h8 h9 hbad
  have hc : check_value_set r = .error .valueError := by
    rcases hbad with hb | ⟨d1, hd1, hb⟩
    · simp [check_value_set, h1, h2, h3, h4, h5, h6, h7, h8, h9, hb]
    · simp [check_value_set, h1, h2, h3, h4, h5, h6, h7, h8, h9, hd1, hb]
  refine ⟨hc, ?_⟩
  intro pre key rest acc hpre
  have hcalc : calculate_additional_fields (pre ++ (key, r) :: rest) = .fatalExit := by
    unfold calculate_additional_fields
    rw [calcAux_append hpre ((key, r) :: rest)]
    simp [calcAux, hc]
  exact ⟨hcalc, by simp [run_main, load_rentals_file, hcalc]⟩

/-- C3 witness: a batch whose second record has the unparseable date
"2020-01-01" (the example 4 string of the spec) aborts after the valid first
record. -/
theorem date_parse_failure_aborts_run_witness :
    check_value_set w2f = .error .valueError ∧
    calculate_additional_fields [("A", rec4), ("B", w2f)] = .fatalExit ∧
    run_main (.content [("A", rec4), ("B", w2f)]) = .abortedFatal := by
  have h := date_parse_failure_aborts_run w2f (.num 10) (.str "X")
    (.str "2020-01-01") (.str "x") rfl (by decide) (by decide) rfl (by decide) rfl
    (by decide) rfl (by decide) (Or.inl (by decide))
  have hpre : calcAux [("A", rec4)] [] = .ok [("A", enr4)] := by
    simp only [calcAux, check_rec4, enrich_rec4, List.nil_append]
  exact ⟨h.1, (h.2 [("A", rec4)] "B" [] [("A", enr4)] hpre).1,
    (h.2 [("A", rec4)] "B" [] [("A", enr4)] hpre).2⟩

/-- C6: the output sink writes nothing (after a logged warning) when the
cleaned mapping is empty, and serializes the mapping as JSON with a
2-space indent when it is non-empty. -/
theorem save_to_json_empty_nonempty (data : List (String × Enriched)) :
    (data = [] → save_to_json data = .skippedWarning) ∧
    (data ≠ [] → save_to_json data = .written 2 data) := by
  constructor
  · intro h
    subst h
    rfl
  · intro h
    cases data with
    | nil => exact absurd rfl h
    | cons x xs => rfl

/-- An arbitrary enriched record, for exercising the output sink. -/
def enr0 : Enriched := ⟨none, none, none, none, none, 0, 0, 0⟩

/-- C6 witness: the sink theorem applied to an empty and to a non-empty
mapping. -/
theorem save_to_json_empty_nonempty_witness :
    save_to_json [] = .skippedWarning ∧
    save_to_json [("A", enr0)] = .written 2 [("A", enr0)] :=
  ⟨(save_to_json_empty_nonempty []).1 rfl,
    (save_to_json_empty_nonempty [("A", enr0)]).2 (by simp)⟩

/-- C7 (the code evaluated at the failing input): `open(filename)` stands
outside the `try`, so a missing input file raises `FileNotFoundError`
before the `except FileNotFoundError` handler is in scope: the run aborts
before any record processing with no output, but as an uncaught crash —
nothing is logged, and the logging handler (`loggedAbort`) is unreachable
for every file state. -/
theorem load_missing_file_uncaught :
    load_rentals_file .missing = .uncaught .fileNotFoundError ∧
    run_main .missing = .crashed .fileNotFoundError ∧
    ∀ f, load_rentals_file f ≠ .loggedAbort := by
  refine ⟨rfl, rfl, ?_⟩
  intro f
  cases f <;> simp [load_rentals_file]

/-- C7 witness: the unreachability conjunct instantiated at the missing
file. -/
theorem load_missing_file_uncaught_witness :
    load_rentals_file .missing ≠ .loggedAbort :=
  load_missing_file_uncaught.2.2 .missing

theorem calcAux_keys {data : List (String × RawRecord)} {acc out : List (String × Enriched)}
    (h : calcAux data acc = .ok out) :
    ∃ t, out = acc ++ t ∧ (t.map Prod.fst).Sublist (data.map Prod.fst) := by
  induction data generalizing acc with
  | nil =>
    simp only [calcAux] at h
    injection h with h
    subst h
    exact ⟨[], by simp, by simp⟩
  | cons kv rest ih =>
    obtain ⟨key, value⟩ := kv
    simp only [calcAux] at h
    cases hc : check_value_set value with
    | error e =>
      rw [hc] at h
      cases e <;> simp at h
    | ok b =>
      cases b with
      | false =>
        rw [hc] at h
        obtain ⟨t, ht, hsub⟩ := ih h
        exact ⟨t, ht, hsub.cons key⟩
      | true =>
        rw [hc] at h
        cases he : enrich value with
        | error e =>
          rw [he] at h
          cases e <;> simp at h
        | ok enr =>
          rw [he] at h
          obtain ⟨t, ht, hsub⟩ := ih h
          refine ⟨(key, enr) :: t, by simp [ht], ?_⟩
          simpa using hsub.cons₂ key

/-- C8: whenever the batch completes without a fatal error, the output
keys form a sublist of the input keys: a subset, in the input iteration
order, each surviving record under its original key. -/
theorem output_keys_sublist {data : List (String × RawRecord)}
    {out : List (String × Enriched)}
    (h : calculate_additional_fields data = .ok out) :
    (out.map Prod.fst).Sublist (data.map Prod.fst) := by
  obtain ⟨t, ht, hsub⟩ := calcAux_keys h
  simpa [ht] using hsub

/-- C8 witness: the key-order theorem applied to the example batch. -/
theorem output_keys_sublist_witness :
    (([("A", enr4)].map Prod.fst).Sublist ([("A", rec4)].map Prod.fst)) :=
  output_keys_sublist calc_rec4
